import Mathlib

/-!
Shallow embedding of the WASAPI output driver in `src/driver_wasapi_windows.go`
(package oto).  Platform calls (COM activation, `IAudioClient2`,
`IAudioRenderClient`, event objects) and the pull from the mixing engine are
modelled by environments that record the result each call would return; each
embedded operation returns the Go function's result, the updated driver
context, and the ordered list of platform/mux calls it performed.

Machine integers: `bufferFrames` and the padding are Go `uint32` values, and
the subtraction `frames := c.bufferFrames - paddingFrames` in
`writeOnRenderThread` is embedded with an explicit modulus `U32MOD`; the
`uint16`/`uint32` narrowing conversions in the format descriptor are embedded
as explicit moduli as well.
-/

namespace Oto

/-- Errors produced by platform calls or by the driver itself.
`closestFormat` stands for the error value built at line 173 of the source
("oto: the specified format is not supported (there is the closest format
instead)"); `os code` stands for an arbitrary error returned by a platform
call; `unexpectedWake value` stands for the error built at line 239. -/
inductive Error where
  | os (code : Nat)
  | closestFormat
  | unexpectedWake (value : Nat)
deriving DecidableEq, Repr

/-- The observable calls a driver operation can perform, in source order:
platform (COM/WASAPI/event) calls plus the pull from the mixing engine
(`mux.ReadFloat32s`, recorded with the length of the slice passed to it).
`clientInit` is the `IAudioClient2.Initialize` call (line 177);
`getBuffer`/`releaseBuffer` carry the frame counts passed at lines 263/288. -/
inductive DriverCall where
  | coCreateInstance
  | getDefaultAudioEndPoint
  | activate
  | setClientProperties
  | isFormatSupported
  | clientInit
  | getBufferSize
  | getService
  | createEvent
  | setEventHandle
  | start
  | stop
  | getCurrentPadding
  | getBuffer (frames : Nat)
  | readFloat32s (samples : Nat)
  | releaseBuffer (frames : Nat) (flags : Nat)
deriving DecidableEq, Repr

/-- 2^32, the modulus of Go's `uint32`. -/
def U32MOD : Nat := 4294967296

/-- 2^16, the modulus of Go's `uint16`. -/
def U16MOD : Nat := 65536

/-- Go `uint32` subtraction `a - b` (wraps around on underflow). -/
def sub32 (a b : Nat) : Nat := (U32MOD + a % U32MOD - b % U32MOD) % U32MOD

/-- Windows speaker-position flag `_SPEAKER_FRONT_CENTER`; the constant is
defined by the repository outside the embedded file, with the standard
Windows header value. -/
def SPEAKER_FRONT_CENTER : Nat := 0x4

/-- Windows speaker-position flag `_SPEAKER_FRONT_LEFT`. -/
def SPEAKER_FRONT_LEFT : Nat := 0x1

/-- Windows speaker-position flag `_SPEAKER_FRONT_RIGHT`. -/
def SPEAKER_FRONT_RIGHT : Nat := 0x2

/-- Windows format tag `_WAVE_FORMAT_EXTENSIBLE` (0xFFFE). -/
def WAVE_FORMAT_EXTENSIBLE : Nat := 0xFFFE

/-- Opaque tag standing for the GUID `_KSDATAFORMAT_SUBTYPE_IEEE_FLOAT`. -/
def KSDATAFORMAT_SUBTYPE_IEEE_FLOAT : Nat := 3

/-- Line 147: `const bitsPerSample = 32`. -/
def bitsPerSample : Nat := 32

/-- The `_WAVEFORMATEXTENSIBLE` descriptor built at lines 156-167 (the
`SubFormat` GUID is modelled by an opaque tag). -/
structure WAVEFORMATEXTENSIBLE where
  wFormatTag : Nat
  nChannels : Nat
  nSamplesPerSec : Nat
  nAvgBytesPerSec : Nat
  nBlockAlign : Nat
  wBitsPerSample : Nat
  cbSize : Nat
  Samples : Nat
  dwChannelMask : Nat
  SubFormat : Nat
deriving DecidableEq, Repr

/-- Lines 149-155: `var channelMask uint32; switch c.channelCount { ... }`.
The switch has no default case, so any other count leaves the mask at the Go
zero value 0. -/
def channelMaskFor (channelCount : Nat) : Nat :=
  match channelCount with
  | 1 => SPEAKER_FRONT_CENTER
  | 2 => SPEAKER_FRONT_LEFT ||| SPEAKER_FRONT_RIGHT
  | _ => 0

/-- Lines 147-167: the candidate format descriptor.  `nBlockAlign` is
`c.channelCount * bitsPerSample / 8` (Go `int` arithmetic), and the
`uint16(...)`/`uint32(...)` conversions are embedded as explicit moduli. -/
def buildFormat (sampleRate channelCount : Nat) : WAVEFORMATEXTENSIBLE :=
  let nBlockAlign := channelCount * bitsPerSample / 8
  { wFormatTag := WAVE_FORMAT_EXTENSIBLE
    nChannels := channelCount % U16MOD
    nSamplesPerSec := sampleRate % U32MOD
    nAvgBytesPerSec := sampleRate * nBlockAlign % U32MOD
    nBlockAlign := nBlockAlign % U16MOD
    wBitsPerSample := bitsPerSample
    cbSize := 0x16
    Samples := bitsPerSample
    dwChannelMask := channelMaskFor channelCount
    SubFormat := KSDATAFORMAT_SUBTYPE_IEEE_FLOAT }

/-- The scratch sample buffer `buf []float32` (line 84), tracked by allocated
capacity and logical length; the float contents are irrelevant to the claims
(the mixing engine always fills the whole slice). -/
structure Buf where
  capacity : Nat
  length : Nat
deriving DecidableEq, Repr

/-- Lines 70-87: the `wasapiContext` struct.  The COM pointers `client` and
`renderClient` are modelled by whether they have been set; `mux` and the
mutex/comThread handles carry no state relevant to the claims. -/
structure wasapiContext where
  sampleRate : Nat
  channelCount : Nat
  errCell : Option Error
  sampleReadyEvent : Option Nat
  client : Option Unit
  mixFormat : Option WAVEFORMATEXTENSIBLE
  bufferFrames : Nat
  renderClient : Option Unit
  buf : Buf
deriving DecidableEq, Repr

/-- Results the platform would return for each call made by
`initOnCOMThread`, in source order. -/
structure InitEnv where
  coCreateInstance : Except Error Unit
  getDefaultAudioEndPoint : Except Error Unit
  activate : Except Error Unit
  setClientProperties : Except Error Unit
  isFormatSupported : Except Error (Option WAVEFORMATEXTENSIBLE)
  clientInit : Except Error Unit
  getBufferSize : Except Error Nat
  getService : Except Error Unit
  createEvent : Except Error Nat
  setEventHandle : Except Error Unit
  start : Except Error Unit

/-- Results the platform would return for the calls made by one fill cycle
(`writeOnRenderThread`). -/
structure RenderEnv where
  getCurrentPadding : Except Error Nat
  getBuffer : Except Error Unit
  releaseBuffer : Except Error Unit

/-- Modelled from the spec: the `atomicError` cell type used by the driver
(field `err atomicError`, line 76) is defined elsewhere in the repository,
outside the embedded file.  The spec describes it as "an atomic
optional-error cell with a compare-and-set-if-empty update" with
"write-once-wins semantics: first error sticks, later writes are ignored";
`TryStore` is that update. -/
def TryStore (a : Option Error) (e : Error) : Option Error :=
  match a with
  | none => some e
  | some e0 => some e0

/-- Modelled from the spec: `Load` reads the atomic error cell. -/
def Load (a : Option Error) : Option Error := a

/-- Lines 324-326: `Err` returns the error recorded by the render thread. -/
def Err (c : wasapiContext) : Option Error := Load c.errCell

/-- What `newCOMThread` leaves behind: the value returned to the caller and
whether the worker goroutine is still running afterwards. -/
structure COMThreadResult where
  result : Except Error Unit
  workerRunning : Bool
deriving Repr

/-- Lines 33-59, `newCOMThread`, as a function of the result of the worker
goroutine's `_CoInitializeEx` call.  On failure the goroutine sends the error
on `errCh` (the constructor receives it and returns it), and then — there is
no `return` statement after the send — control falls through to
`close(errCh)` and `for f := range funcCh`.  `funcCh` is never closed, so in
both cases the worker goroutine keeps running (on a locked OS thread). -/
def newCOMThread (coInit : Except Error Unit) : COMThreadResult :=
  match coInit with
  | .error e => { result := .error e, workerRunning := true }
  | .ok () => { result := .ok (), workerRunning := true }

/-- Lines 95-100: the context as built by `newWASAPIContext` before
`initOnCOMThread` runs; the remaining fields hold their Go zero values. -/
def initialContext (sampleRate channelCount : Nat) : wasapiContext :=
  { sampleRate := sampleRate
    channelCount := channelCount
    errCell := none
    sampleReadyEvent := none
    client := none
    mixFormat := none
    bufferFrames := 0
    renderClient := none
    buf := { capacity := 0, length := 0 } }

/-- Lines 116-230: `initOnCOMThread`, returning its result, the updated
context, and the ordered calls it performed.  The trace stops at the first
failing call, as each failure returns immediately.  The render goroutine it
spawns at lines 211-227 only records failures in the error cell
(`recordRenderFailures` below) and is otherwise out of scope here. -/
def initOnCOMThread (c : wasapiContext) (env : InitEnv) :
    Except Error Unit × wasapiContext × List DriverCall :=
  let t1 : List DriverCall := [.coCreateInstance]
  match env.coCreateInstance with
  | .error e => (.error e, c, t1)
  | .ok () =>
  let t2 := t1 ++ [.getDefaultAudioEndPoint]
  match env.getDefaultAudioEndPoint with
  | .error e => (.error e, c, t2)
  | .ok () =>
  let t3 := t2 ++ [.activate]
  match env.activate with
  | .error e => (.error e, c, t3)
  | .ok () =>
  let c1 := { c with client := some () }
  let t4 := t3 ++ [.setClientProperties]
  match env.setClientProperties with
  | .error e => (.error e, c1, t4)
  | .ok () =>
  let f := buildFormat c1.sampleRate c1.channelCount
  let t5 := t4 ++ [.isFormatSupported]
  match env.isFormatSupported with
  | .error e => (.error e, c1, t5)
  | .ok (some _) => (.error .closestFormat, c1, t5)
  | .ok none =>
  let c2 := { c1 with mixFormat := some f }
  let t6 := t5 ++ [.clientInit]
  match env.clientInit with
  | .error e => (.error e, c2, t6)
  | .ok () =>
  let t7 := t6 ++ [.getBufferSize]
  match env.getBufferSize with
  | .error e => (.error e, c2, t7)
  | .ok frames =>
  let c3 := { c2 with bufferFrames := frames % U32MOD }
  let t8 := t7 ++ [.getService]
  match env.getService with
  | .error e => (.error e, c3, t8)
  | .ok () =>
  let c4 := { c3 with renderClient := some () }
  let t9 := t8 ++ [.createEvent]
  match env.createEvent with
  | .error e => (.error e, c4, t9)
  | .ok ev =>
  let c5 := { c4 with sampleReadyEvent := some ev }
  let t10 := t9 ++ [.setEventHandle]
  match env.setEventHandle with
  | .error e => (.error e, c5, t10)
  | .ok () =>
  let t11 := t10 ++ [.start]
  match env.start with
  | .error e => (.error e, c5, t11)
  | .ok () => (.ok (), c5, t11)

/-- Lines 89-114: `newWASAPIContext` builds the COM thread first (returning
its error if apartment setup failed), then runs `initOnCOMThread` on it. -/
def newWASAPIContext (sampleRate channelCount : Nat) (coInit : Except Error Unit)
    (env : InitEnv) : Except Error wasapiContext × List DriverCall :=
  match (newCOMThread coInit).result with
  | .error e => (.error e, [])
  | .ok () =>
    let r := initOnCOMThread (initialContext sampleRate channelCount) env
    match r.1 with
    | .error e => (.error e, r.2.2)
    | .ok () => (.ok r.2.1, r.2.2)

/-- Whether a construction result is a success. -/
def constructionSucceeded (r : Except Error wasapiContext × List DriverCall) : Bool :=
  match r.1 with
  | .ok _ => true
  | .error _ => false

/-- Lines 248-294: one fill cycle (`writeOnRenderThread`), under the mutex.
`frames := c.bufferFrames - paddingFrames` is Go `uint32` subtraction, and
`if frames <= 0` on an unsigned value holds exactly when `frames == 0`, so it
is embedded as that test.  The slice-header copy into the hardware region
(lines 280-285) touches only the hardware buffer, which is outside the
context state; the pull `c.mux.ReadFloat32s(c.buf)` (line 277) is recorded in
the trace with `len(c.buf)`. -/
def writeOnRenderThread (c : wasapiContext) (env : RenderEnv) :
    Except Error Unit × wasapiContext × List DriverCall :=
  match env.getCurrentPadding with
  | .error e => (.error e, c, [.getCurrentPadding])
  | .ok paddingFrames =>
  let frames := sub32 c.bufferFrames paddingFrames
  if frames = 0 then
    (.ok (), c, [.getCurrentPadding])
  else
    match env.getBuffer with
    | .error e => (.error e, c, [.getCurrentPadding, .getBuffer frames])
    | .ok () =>
    let buflen := frames * c.channelCount
    let b1 : Buf :=
      if c.buf.capacity < buflen then { capacity := buflen, length := buflen }
      else { c.buf with length := buflen }
    match env.releaseBuffer with
    | .error e =>
      (.error e, { c with buf := b1 },
        [.getCurrentPadding, .getBuffer frames, .readFloat32s buflen,
          .releaseBuffer frames 0])
    | .ok () =>
      (.ok (), { c with buf := { b1 with length := 0 } },
        [.getCurrentPadding, .getBuffer frames, .readFloat32s buflen,
          .releaseBuffer frames 0])

/-- A sequence of fill cycles, each wake's platform results supplied by one
environment in the list. -/
def runCycles (c : wasapiContext) (envs : List RenderEnv) : wasapiContext :=
  envs.foldl (fun s env => (writeOnRenderThread s env).2.1) c

/-- Lines 211-227: each terminal render-thread failure is recorded with
`c.err.TryStore(err)`; this folds a sequence of such recordings into the
context's error cell. -/
def recordRenderFailures (c : wasapiContext) (errs : List Error) : wasapiContext :=
  errs.foldl (fun s e => { s with errCell := TryStore s.errCell e }) c

/-- Lines 296-308: `Suspend` runs `c.client.Stop()` on the COM thread under
the mutex and returns its result via the captured `cerr`; the context fields
are untouched. -/
def Suspend (c : wasapiContext) (stopResult : Except Error Unit) :
    Except Error Unit × wasapiContext × List DriverCall :=
  match stopResult with
  | .error e => (.error e, c, [.stop])
  | .ok () => (.ok (), c, [.stop])

/-- Lines 310-322: `Resume` runs `c.client.Start()` on the COM thread under
the mutex and returns its result via the captured `cerr`. -/
def Resume (c : wasapiContext) (startResult : Except Error Unit) :
    Except Error Unit × wasapiContext × List DriverCall :=
  match startResult with
  | .error e => (.error e, c, [.start])
  | .ok () => (.ok (), c, [.start])

/-- A platform environment in which every setup call succeeds and the format
is supported exactly (`IsFormatSupported` returns no closest alternative). -/
def allOkInitEnv : InitEnv :=
  { coCreateInstance := .ok ()
    getDefaultAudioEndPoint := .ok ()
    activate := .ok ()
    setClientProperties := .ok ()
    isFormatSupported := .ok none
    clientInit := .ok ()
    getBufferSize := .ok 1024
    getService := .ok ()
    createEvent := .ok 1
    setEventHandle := .ok ()
    start := .ok () }

/-- A setup environment in which `IsFormatSupported` reports a closest
alternative format instead of exact support. -/
def closestInitEnv : InitEnv :=
  { allOkInitEnv with isFormatSupported := .ok (some (buildFormat 44100 2)) }

/-- A stereo context whose hardware buffer capacity is 1024 frames. -/
def ctx1024 : wasapiContext :=
  { initialContext 48000 2 with bufferFrames := 1024 }

/-- A stereo context with capacity 1024 frames and a scratch buffer already
grown to 4096 samples. -/
def ctxBig : wasapiContext :=
  { initialContext 48000 2 with
      bufferFrames := 1024
      buf := { capacity := 4096, length := 0 } }

/-- A render environment in which all platform calls succeed and
`GetCurrentPadding` reports the given padding. -/
def renderEnvOk (padding : Nat) : RenderEnv :=
  { getCurrentPadding := .ok padding, getBuffer := .ok (), releaseBuffer := .ok () }

/-- Go `uint32` subtraction agrees with the mathematical difference when it
does not underflow. -/
theorem sub32_eq (a b : Nat) (ha : a < U32MOD) (hb : b ≤ a) : sub32 a b = a - b := by
  unfold sub32
  have hbm : b < U32MOD := lt_of_le_of_lt hb ha
  rw [Nat.mod_eq_of_lt ha, Nat.mod_eq_of_lt hbm]
  have h1 : U32MOD + a - b = (a - b) + U32MOD := by omega
  rw [h1, Nat.add_mod_right, Nat.mod_eq_of_lt (by omega)]

/-- Storing into a non-empty cell keeps the stored error. -/
theorem foldl_TryStore_some (e : Error) (errs : List Error) :
    errs.foldl TryStore (some e) = some e := by
  induction errs with
  | nil => rfl
  | cons x xs ih => simpa [List.foldl, TryStore] using ih

/-- Recording render failures only folds `TryStore` over the error cell. -/
theorem recordRenderFailures_errCell (c : wasapiContext) (errs : List Error) :
    (recordRenderFailures c errs).errCell = errs.foldl TryStore c.errCell := by
  induction errs generalizing c with
  | nil => rfl
  | cons x xs ih =>
    simp only [recordRenderFailures, List.foldl] at ih ⊢
    exact ih { c with errCell := TryStore c.errCell x }

/-- Claim C3 (code evaluated at the failing input): when the worker thread's
`_CoInitializeEx` fails, `newCOMThread` does return that failure to the
caller, but — because the goroutine has no `return` after `errCh <- err` and
`funcCh` is never closed — the worker goroutine is left running, parked in
`for f := range funcCh` on a locked OS thread. -/
theorem com_thread_init_failure_leaks_worker :
    (newCOMThread (.error (Error.os 7))).result = .error (Error.os 7) ∧
    (newCOMThread (.error (Error.os 7))).workerRunning = true :=
  ⟨rfl, rfl⟩

/-- Claim C2 (code evaluated at the failing input): with a hardware buffer
capacity of 1024 frames, a reported padding of exactly 1024 is a no-op cycle,
but a padding of 1025 is not: the `uint32` subtraction wraps to 4294967295,
and the cycle requests a write pointer for 4294967295 frames and pulls
8589934590 samples, instead of the no-op the spec describes for
`available <= 0`. -/
theorem padding_exceeding_capacity_wraps :
    (writeOnRenderThread ctx1024 (renderEnvOk 1024)).2.2 = [DriverCall.getCurrentPadding] ∧
    (writeOnRenderThread ctx1024 (renderEnvOk 1024)).1 = .ok () ∧
    DriverCall.getBuffer 4294967295 ∈ (writeOnRenderThread ctx1024 (renderEnvOk 1025)).2.2 ∧
    DriverCall.readFloat32s 8589934590 ∈ (writeOnRenderThread ctx1024 (renderEnvOk 1025)).2.2 := by
  refine ⟨rfl, rfl, ?_, ?_⟩ <;> decide

/-- Claim C6: the error cell starts empty, is set at most once (first write
wins, a write never empties it), and `Err` returns the first recorded
render-loop failure, or no error if none occurred. -/
theorem error_cell_first_write_wins (sampleRate channelCount : Nat) (errs : List Error) :
    (initialContext sampleRate channelCount).errCell = none ∧
    Err (recordRenderFailures (initialContext sampleRate channelCount) errs) = errs.head? ∧
    (∀ (a : Option Error) (e : Error), TryStore a e ≠ none) ∧
    (∀ (e0 e1 : Error), TryStore (TryStore none e0) e1 = some e0) := by
  refine ⟨rfl, ?_, ?_, ?_⟩
  · rw [Err, Load, recordRenderFailures_errCell]
    cases errs with
    | nil => rfl
    | cons x xs => simp [initialContext, List.foldl, TryStore, foldl_TryStore_some]
  · intro a e
    cases a <;> simp [TryStore]
  · intro e0 e1
    rfl

/-- Claim C6 witness: two distinct render failures in sequence leave the
first one in the cell. -/
theorem error_cell_first_write_wins_witness :
    Err (recordRenderFailures (initialContext 48000 2) [Error.os 1, Error.os 2]) =
      some (Error.os 1) :=
  (error_cell_first_write_wins 48000 2 [Error.os 1, Error.os 2]).2.1

/-- Claim C8: `Suspend` and `Resume` return the underlying stop/start result
directly to the caller and leave the whole context — in particular the error
cell read by `Err` — unchanged, whether they succeed or fail. -/
theorem suspend_resume_direct_errors (c : wasapiContext)
    (stopR startR : Except Error Unit) :
    (Suspend c stopR).1 = stopR ∧ (Suspend c stopR).2.1 = c ∧
    Err (Suspend c stopR).2.1 = Err c ∧
    (Resume c startR).1 = startR ∧ (Resume c startR).2.1 = c ∧
    Err (Resume c startR).2.1 = Err c := by
  cases stopR <;> cases startR <;> exact ⟨rfl, rfl, rfl, rfl, rfl, rfl⟩

/-- Claim C10: a fill cycle can change only the scratch buffer: sample rate,
channel count, negotiated format, buffer capacity, client and render-client
handles, readiness event and error cell are unchanged whether the cycle
completes, no-ops, or fails. -/
theorem fill_cycle_modifies_only_buf (c : wasapiContext) (env : RenderEnv) :
    ((writeOnRenderThread c env).2.1).sampleRate = c.sampleRate ∧
    ((writeOnRenderThread c env).2.1).channelCount = c.channelCount ∧
    ((writeOnRenderThread c env).2.1).mixFormat = c.mixFormat ∧
    ((writeOnRenderThread c env).2.1).bufferFrames = c.bufferFrames ∧
    ((writeOnRenderThread c env).2.1).client = c.client ∧
    ((writeOnRenderThread c env).2.1).renderClient = c.renderClient ∧
    ((writeOnRenderThread c env).2.1).sampleReadyEvent = c.sampleReadyEvent ∧
    ((writeOnRenderThread c env).2.1).errCell = c.errCell := by
  rcases env with ⟨pad, gb, rb⟩
  rcases pad with e | p
  · simp [writeOnRenderThread]
  · rcases gb with e2 | u <;> rcases rb with e3 | v <;>
      simp only [writeOnRenderThread] <;> split <;> simp

/-- Claim C4: when the reported padding is strictly below the hardware
capacity, the fill cycle requests a write pointer for exactly
`capacity − padding` frames, pulls exactly `(capacity − padding) ×
channelCount` interleaved samples from the mixing engine, commits exactly
`capacity − padding` frames with no flags, and succeeds. -/
theorem fill_cycle_exact_sizes (c : wasapiContext) (env : RenderEnv) (p : Nat)
    (hbf : c.bufferFrames < U32MOD)
    (hpad : env.getCurrentPadding = .ok p)
    (hlt : p < c.bufferFrames)
    (hgb : env.getBuffer = .ok ())
    (hrb : env.releaseBuffer = .ok ()) :
    (writeOnRenderThread c env).1 = .ok () ∧
    (writeOnRenderThread c env).2.2 =
      [DriverCall.getCurrentPadding,
       DriverCall.getBuffer (c.bufferFrames - p),
       DriverCall.readFloat32s ((c.bufferFrames - p) * c.channelCount),
       DriverCall.releaseBuffer (c.bufferFrames - p) 0] := by
  have hs : sub32 c.bufferFrames p = c.bufferFrames - p :=
    sub32_eq _ _ hbf (Nat.le_of_lt hlt)
  have hne : ¬ (c.bufferFrames - p = 0) := by omega
  simp [writeOnRenderThread, hpad, hgb, hrb, hs, hne]

/-- Claim C4 witness: with capacity 1024 frames, padding 512 and two
channels, the cycle requests 512 frames, pulls 1024 samples, and commits 512
frames. -/
theorem fill_cycle_exact_sizes_witness :
    (ctx1024.bufferFrames < U32MOD ∧
     (renderEnvOk 512).getCurrentPadding = .ok 512 ∧
     512 < ctx1024.bufferFrames) ∧
    ((writeOnRenderThread ctx1024 (renderEnvOk 512)).1 = .ok () ∧
     (writeOnRenderThread ctx1024 (renderEnvOk 512)).2.2 =
       [DriverCall.getCurrentPadding,
        DriverCall.getBuffer 512,
        DriverCall.readFloat32s 1024,
        DriverCall.releaseBuffer 512 0]) :=
  ⟨⟨by decide, rfl, by decide⟩,
   fill_cycle_exact_sizes ctx1024 (renderEnvOk 512) 512 (by decide) rfl
     (by decide) rfl rfl⟩

/-- Claim C5: whenever `IsFormatSupported` reports a closest-alternative
format instead of exact shared-mode support, setup fails with the dedicated
error, the altered format is never stored as the negotiated format, and
client initialization is not performed. -/
theorem closest_format_hard_failure (c : wasapiContext) (env : InitEnv)
    (g : WAVEFORMATEXTENSIBLE)
    (hc : env.coCreateInstance = .ok ())
    (hd : env.getDefaultAudioEndPoint = .ok ())
    (ha : env.activate = .ok ())
    (hp : env.setClientProperties = .ok ())
    (hf : env.isFormatSupported = .ok (some g)) :
    (initOnCOMThread c env).1 = .error .closestFormat ∧
    DriverCall.clientInit ∉ (initOnCOMThread c env).2.2 ∧
    ((initOnCOMThread c env).2.1).mixFormat = c.mixFormat := by
  simp [initOnCOMThread, hc, hd, ha, hp, hf]

/-- Claim C5 witness: a concrete environment offering a closest format makes
setup fail without initializing the client or storing a format. -/
theorem closest_format_hard_failure_witness :
    (closestInitEnv.coCreateInstance = .ok () ∧
     closestInitEnv.isFormatSupported = .ok (some (buildFormat 44100 2))) ∧
    ((initOnCOMThread (initialContext 48000 2) closestInitEnv).1 = .error .closestFormat ∧
     DriverCall.clientInit ∉ (initOnCOMThread (initialContext 48000 2) closestInitEnv).2.2 ∧
     ((initOnCOMThread (initialContext 48000 2) closestInitEnv).2.1).mixFormat =
       (initialContext 48000 2).mixFormat) :=
  ⟨⟨rfl, rfl⟩,
   closest_format_hard_failure (initialContext 48000 2) closestInitEnv
     (buildFormat 44100 2) rfl rfl rfl rfl rfl⟩

/-- Claim C9: for the supported channel counts the candidate format
descriptor matches the documented formula: 32-bit float samples, block
alignment `channelCount × 4` bytes, average byte rate `sampleRate ×
blockAlign`, channel mask front-center for mono and
front-left|front-right for stereo. -/
theorem candidate_format_formula (sampleRate channelCount : Nat)
    (hcc : channelCount = 1 ∨ channelCount = 2)
    (hsr : sampleRate < U32MOD)
    (hrate : sampleRate * (channelCount * 4) < U32MOD) :
    (buildFormat sampleRate channelCount).wBitsPerSample = 32 ∧
    (buildFormat sampleRate channelCount).nChannels = channelCount ∧
    (buildFormat sampleRate channelCount).nSamplesPerSec = sampleRate ∧
    (buildFormat sampleRate channelCount).nBlockAlign = channelCount * 4 ∧
    (buildFormat sampleRate channelCount).nAvgBytesPerSec = sampleRate * (channelCount * 4) ∧
    (buildFormat sampleRate channelCount).SubFormat = KSDATAFORMAT_SUBTYPE_IEEE_FLOAT ∧
    (channelCount = 1 →
      (buildFormat sampleRate channelCount).dwChannelMask = SPEAKER_FRONT_CENTER) ∧
    (channelCount = 2 →
      (buildFormat sampleRate channelCount).dwChannelMask =
        (SPEAKER_FRONT_LEFT ||| SPEAKER_FRONT_RIGHT)) := by
  have h1 : sampleRate % U32MOD = sampleRate := Nat.mod_eq_of_lt hsr
  rcases hcc with h | h <;> subst h
  · have h2 : sampleRate * 4 % U32MOD = sampleRate * 4 :=
      Nat.mod_eq_of_lt (by omega)
    simp [buildFormat, bitsPerSample, channelMaskFor, U16MOD, h1, h2]
  · have h2 : sampleRate * 8 % U32MOD = sampleRate * 8 :=
      Nat.mod_eq_of_lt (by omega)
    simp [buildFormat, bitsPerSample, channelMaskFor, U16MOD, h1, h2]

/-- Claim C9 witness: the formula at 48000 Hz stereo. -/
theorem candidate_format_formula_witness :
    (((2 : Nat) = 1 ∨ (2 : Nat) = 2) ∧
     48000 < U32MOD ∧ 48000 * (2 * 4) < U32MOD) ∧
    ((buildFormat 48000 2).wBitsPerSample = 32 ∧
     (buildFormat 48000 2).nChannels = 2 ∧
     (buildFormat 48000 2).nSamplesPerSec = 48000 ∧
     (buildFormat 48000 2).nBlockAlign = 2 * 4 ∧
     (buildFormat 48000 2).nAvgBytesPerSec = 48000 * (2 * 4) ∧
     (buildFormat 48000 2).SubFormat = KSDATAFORMAT_SUBTYPE_IEEE_FLOAT ∧
     ((2 : Nat) = 1 → (buildFormat 48000 2).dwChannelMask = SPEAKER_FRONT_CENTER) ∧
     ((2 : Nat) = 2 → (buildFormat 48000 2).dwChannelMask =
        (SPEAKER_FRONT_LEFT ||| SPEAKER_FRONT_RIGHT))) :=
  ⟨⟨Or.inr rfl, by decide, by decide⟩,
   candidate_format_formula 48000 2 (Or.inr rfl) (by decide) (by decide)⟩

/-- One fill cycle never shrinks the scratch buffer's allocated capacity. -/
theorem writeOnRenderThread_cap_mono (c : wasapiContext) (env : RenderEnv) :
    c.buf.capacity ≤ ((writeOnRenderThread c env).2.1).buf.capacity := by
  rcases env with ⟨pad, gb, rb⟩
  rcases pad with e | p
  · simp [writeOnRenderThread]
  · rcases gb with e2 | u <;> rcases rb with e3 | v <;>
      simp only [writeOnRenderThread] <;> split <;> simp
    all_goals split <;> simp <;> omega

/-- Capacity is monotone over any sequence of fill cycles. -/
theorem runCycles_cap_mono (c : wasapiContext) (envs : List RenderEnv) :
    c.buf.capacity ≤ (runCycles c envs).buf.capacity := by
  induction envs generalizing c with
  | nil => exact Nat.le_refl _
  | cons env envs ih =>
    calc c.buf.capacity
        ≤ ((writeOnRenderThread c env).2.1).buf.capacity :=
          writeOnRenderThread_cap_mono c env
      _ ≤ (runCycles c (env :: envs)).buf.capacity := by
          simpa [runCycles, List.foldl] using ih ((writeOnRenderThread c env).2.1)

/-- Claim C7: the scratch buffer's allocated capacity is monotonically
non-decreasing across any sequence of fill cycles; a cycle keeps the current
allocation whenever the required sample count fits into it; and a completed
cycle leaves the logical length at zero (the render loop's invariant) while
retaining the capacity. -/
theorem scratch_buffer_grow_only (c : wasapiContext) (env : RenderEnv) :
    c.buf.capacity ≤ ((writeOnRenderThread c env).2.1).buf.capacity ∧
    (∀ p, env.getCurrentPadding = .ok p →
      sub32 c.bufferFrames p * c.channelCount ≤ c.buf.capacity →
      ((writeOnRenderThread c env).2.1).buf.capacity = c.buf.capacity) ∧
    (c.buf.length = 0 → (writeOnRenderThread c env).1 = .ok () →
      ((writeOnRenderThread c env).2.1).buf.length = 0) ∧
    (∀ envs : List RenderEnv, c.buf.capacity ≤ (runCycles c envs).buf.capacity) := by
  refine ⟨writeOnRenderThread_cap_mono c env, ?_, ?_, fun envs => runCycles_cap_mono c envs⟩
  · intro p hp hfit
    have hcap : ¬ (c.buf.capacity < sub32 c.bufferFrames p * c.channelCount) :=
      Nat.not_lt.mpr hfit
    rcases env with ⟨pad, gb, rb⟩
    simp only at hp
    subst hp
    rcases gb with e2 | u <;> rcases rb with e3 | v <;>
      simp [writeOnRenderThread, hcap] <;> split <;> simp [hcap]
  · intro hlen hok
    rcases env with ⟨pad, gb, rb⟩
    rcases pad with e | p
    · simp [writeOnRenderThread] at hok
    · rcases gb with e2 | u <;> rcases rb with e3 | v <;>
        simp only [writeOnRenderThread] at hok ⊢ <;> split at hok <;>
        simp_all [writeOnRenderThread]

/-- Claim C7 witness: with a scratch buffer already grown to 4096 samples, a
cycle needing 1024 samples keeps the allocation and does not shrink it. -/
theorem scratch_buffer_grow_only_witness :
    ((renderEnvOk 512).getCurrentPadding = .ok 512 ∧
     sub32 ctxBig.bufferFrames 512 * ctxBig.channelCount ≤ ctxBig.buf.capacity) ∧
    (ctxBig.buf.capacity ≤ ((writeOnRenderThread ctxBig (renderEnvOk 512)).2.1).buf.capacity ∧
     ((writeOnRenderThread ctxBig (renderEnvOk 512)).2.1).buf.capacity =
       ctxBig.buf.capacity) :=
  ⟨⟨rfl, by decide⟩,
   ⟨(scratch_buffer_grow_only ctxBig (renderEnvOk 512)).1,
    (scratch_buffer_grow_only ctxBig (renderEnvOk 512)).2.1 512 rfl (by decide)⟩⟩

/-- Claim C1 (counterexample): with channel count 3 — outside {1, 2} — and a
platform that accepts every call (no closest alternative reported),
construction performs device activation, the format query and client
initialization, and succeeds: the request is not rejected, let alone before
any hardware call. -/
theorem channel_count_three_reaches_hardware :
    constructionSucceeded (newWASAPIContext 48000 3 (.ok ()) allOkInitEnv) = true ∧
    DriverCall.activate ∈ (newWASAPIContext 48000 3 (.ok ()) allOkInitEnv).2 ∧
    DriverCall.clientInit ∈ (newWASAPIContext 48000 3 (.ok ()) allOkInitEnv).2 := by
  refine ⟨rfl, by decide, by decide⟩

/-- Claim C1 (amended): for channel counts outside {1, 2} the driver performs
no early validation: the `switch` leaves the candidate channel mask at 0, and
setup still activates the device and submits the candidate format to the
shared-mode format-support query — rejection of unsupported counts is
deferred to the audio subsystem. -/
theorem channel_mask_zero_no_early_rejection (sampleRate channelCount : Nat)
    (env : InitEnv) (h1 : channelCount ≠ 1) (h2 : channelCount ≠ 2)
    (hc : env.coCreateInstance = .ok ())
    (hd : env.getDefaultAudioEndPoint = .ok ())
    (ha : env.activate = .ok ())
    (hp : env.setClientProperties = .ok ()) :
    (buildFormat sampleRate channelCount).dwChannelMask = 0 ∧
    DriverCall.activate ∈
      (initOnCOMThread (initialContext sampleRate channelCount) env).2.2 ∧
    DriverCall.isFormatSupported ∈
      (initOnCOMThread (initialContext sampleRate channelCount) env).2.2 := by
  have hmask : channelMaskFor channelCount = 0 := by
    cases channelCount with
    | zero => rfl
    | succ n =>
      cases n with
      | zero => exact absurd rfl h1
      | succ m =>
        cases m with
        | zero => exact absurd rfl h2
        | succ k => rfl
  have hmem : DriverCall.activate ∈
      (initOnCOMThread (initialContext sampleRate channelCount) env).2.2 ∧
      DriverCall.isFormatSupported ∈
        (initOnCOMThread (initialContext sampleRate channelCount) env).2.2 := by
    rcases hff : env.isFormatSupported with e | (_ | g)
    · constructor <;> simp [initOnCOMThread, hc, hd, ha, hp, hff]
    · rcases hii : env.clientInit with e | u <;>
        rcases hbb : env.getBufferSize with e | n <;>
        rcases hss : env.getService with e | u2 <;>
        rcases hee : env.createEvent with e | n2 <;>
        rcases hhh : env.setEventHandle with e | u3 <;>
        rcases hst : env.start with e | u4 <;>
        constructor <;>
        simp [initOnCOMThread, hc, hd, ha, hp, hff, hii, hbb, hss, hee, hhh, hst]
    · constructor <;> simp [initOnCOMThread, hc, hd, ha, hp, hff]
  exact ⟨by simpa [buildFormat] using hmask, hmem.1, hmem.2⟩

/-- Claim C1 (amended) witness: channel count 3 under an all-accepting
platform gets channel mask 0 and still reaches activation and the format
query. -/
theorem channel_mask_zero_no_early_rejection_witness :
    ((3 : Nat) ≠ 1 ∧ (3 : Nat) ≠ 2 ∧ allOkInitEnv.coCreateInstance = .ok ()) ∧
    ((buildFormat 48000 3).dwChannelMask = 0 ∧
     DriverCall.activate ∈ (initOnCOMThread (initialContext 48000 3) allOkInitEnv).2.2 ∧
     DriverCall.isFormatSupported ∈
       (initOnCOMThread (initialContext 48000 3) allOkInitEnv).2.2) :=
  ⟨⟨by decide, by decide, rfl⟩,
   channel_mask_zero_no_early_rejection 48000 3 allOkInitEnv (by decide) (by decide)
     rfl rfl rfl rfl⟩

end Oto
